import Mathlib

/-!
# Verification of the deno_winit window bridge (`src/mod.ts`)

A shallow embedding of `src/mod.ts`, the TypeScript bridge between a native
winit event loop and Deno's WebGPU API.

Modelling conventions:
* JavaScript strings cross the FFI boundary as their UTF-8 byte sequences,
  so strings are modelled as `List UInt8` (their UTF-8 encoding).  The NUL
  character `"\0"` encodes as the single byte `0`, so
  `enc.encode(str + "\0")` is `bytes ++ [0]`.
* `Deno.PointerValue` is an opaque handle modelled as `Nat`; a nullable
  pointer variable (initialised to `null`) is `Option Ptr`.
* `GPUDevice` and `GPUAdapter` are opaque capabilities modelled as `Nat`.
* The mutable closure state of `WinitWindow.spawn` (the `surface`,
  `context`, `windowHandle`, `displayHandle` locals together with the
  `this` fields the callbacks read and write) is an explicit `SpawnState`
  record, and each FFI callback is a state-transition function.
  Observable effects (user-callback invocations, surface constructions,
  `surface.present()` calls, `console.error` logs) are recorded in the
  state so that theorems can speak about them.
* Exceptions thrown by the constructor / `spawn` are `Except String`,
  carrying the exact `Error` message from the source.
-/

/-- The platform tags of `src/mod.ts` line 37:
`"win32" | "cocoa" | "wayland" | "x11"`. -/
inductive System where
  | win32
  | cocoa
  | wayland
  | x11
deriving DecidableEq, Repr

/-- An opaque native pointer (`Deno.PointerValue`). -/
abbrev Ptr := Nat

/-- The UTF-8 bytes of the default window title `"Deno + winit"`
(`src/mod.ts` line 38); the title is ASCII so each byte is a code point. -/
def defaultTitleBytes : List UInt8 :=
  [68, 101, 110, 111, 32, 43, 32, 119, 105, 110, 105, 116]

/-- The marshaller `asCString` (`src/mod.ts` lines 307-310): UTF-8 encode the string with a
`"\0"` appended, i.e. append a single zero byte to the string's bytes. -/
def asCString (s : List UInt8) : List UInt8 :=
  s ++ [0]

/-- The options record accepted by the `WinitWindow` constructor
(`src/mod.ts` lines 64-84).  `none` models an omitted (`undefined`) option.
The three user callbacks are modelled by opaque identifiers. -/
structure WinitWindowOptions where
  forceX11 : Bool
  windowTitle : Option (List UInt8)
  windowIconPath : Option (List UInt8)
  width : Option Nat
  height : Option Nat
  presentationFormat : Option String
  setupFunction : Option Nat
  drawFunction : Option Nat
  resizeFunction : Option Nat
deriving DecidableEq, Repr

/-- The fields of a constructed `WinitWindow` (`src/mod.ts` lines 35-50).
`dylibPromise` records that the dynamic-library promise was assigned
(line 154); the callback fields hold the opaque identifiers of the user
functions, `0` standing for the default no-op `() => \x7b\x7d`. -/
structure WinitWindow where
  dylibPromise : Bool
  system : Option System
  windowTitle : List UInt8
  windowIconPath : Option (List UInt8)
  width : Nat
  height : Nat
  presentationFormat : String
  setupFunction : Nat
  drawFunction : Nat
  resizeFunction : Nat
deriving DecidableEq, Repr

/-- The platform-resolution `switch` (`src/mod.ts` lines 117-133): maps
`Deno.build.os` and the `forceX11` flag to a platform tag, `none` for the
`default:` branch that throws. -/
def resolvePlatform (os : String) (forceX11 : Bool) : Option System :=
  if os = "linux" then some (if forceX11 then System.x11 else System.wayland)
  else if os = "windows" then some System.win32
  else if os = "darwin" then some System.cocoa
  else none

/-- JavaScript truthiness of an optional string option: `undefined` and the
empty string are falsy (`if (windowTitle)` etc., `src/mod.ts` lines 85-91). -/
def truthyStr : Option (List UInt8) → Bool
  | none => false
  | some s => !s.isEmpty

/-- JavaScript truthiness of an optional number option: `undefined` and `0`
are falsy (`if (width)` etc., `src/mod.ts` lines 93-99). -/
def truthyNum : Option Nat → Bool
  | none => false
  | some n => n != 0

/-- The `WinitWindow` constructor (`src/mod.ts` lines 64-158): apply the
truthiness-guarded overrides to the field initialisers, resolve the
platform (throwing `"Unsupported OS."` on the `default:` branch), then
assign the dynamic-library promise.  A present function option is always
truthy. -/
def mkWinitWindow (o : WinitWindowOptions) (os : String) :
    Except String WinitWindow :=
  let windowTitle :=
    if truthyStr o.windowTitle then o.windowTitle.getD [] else defaultTitleBytes
  let windowIconPath :=
    if truthyStr o.windowIconPath then o.windowIconPath else none
  let width := if truthyNum o.width then o.width.getD 0 else 512
  let height := if truthyNum o.height then o.height.getD 0 else 512
  let presentationFormat :=
    match o.presentationFormat with
    | none => "bgra8unorm"
    | some f => if f = "" then "bgra8unorm" else f
  let setupFunction := o.setupFunction.getD 0
  let drawFunction := o.drawFunction.getD 0
  let resizeFunction := o.resizeFunction.getD 0
  match resolvePlatform os o.forceX11 with
  | none => .error "Unsupported OS."
  | some sys =>
      .ok { dylibPromise := true, system := some sys, windowTitle,
            windowIconPath, width, height, presentationFormat,
            setupFunction, drawFunction, resizeFunction }

/-- A constructed `Deno.UnsafeWindowSurface` (`src/mod.ts` lines 198-202):
records the platform tag and handle pair it was built against. -/
structure Surface where
  system : System
  winHandle : Option Ptr
  dispHandle : Option Ptr
deriving DecidableEq, Repr

/-- A configured `GPUCanvasContext` (`src/mod.ts` lines 203-209): records
the device, format, width and height passed to `context.configure`. -/
structure CanvasContext where
  device : Nat
  format : String
  width : Nat
  height : Nat
deriving DecidableEq, Repr

/-- The mutable state visible to the three FFI callbacks registered by
`WinitWindow.spawn` (`src/mod.ts` lines 163-272): the `this` fields, the
closure locals `surface`/`context`/`windowHandle`/`displayHandle`
(lines 182-185), and ghost fields recording the observable effects. -/
structure SpawnState where
  system : Option System
  presentationFormat : String
  width : Nat
  height : Nat
  windowTitle : List UInt8
  windowIconPath : Option (List UInt8)
  setupFunction : Nat
  drawFunction : Nat
  resizeFunction : Nat
  device : Nat
  surface : Option Surface
  context : Option CanvasContext
  windowHandle : Option Ptr
  displayHandle : Option Ptr
  surfaceConstructions : Nat
  userSetupCalls : List (Nat × CanvasContext)
  userDrawCalls : List (Nat × CanvasContext)
  userResizeCalls : List (Nat × Nat)
  presents : Nat
  logs : List String
deriving DecidableEq, Repr

/-- The helper `setupSurfaceAndContext` (`src/mod.ts` lines 187-210): if the platform
tag is absent, log `"System not supported."` and return early; otherwise
construct a new `Deno.UnsafeWindowSurface` from the tag and handle pair and
configure a fresh context with the device, presentation format and given
dimensions. -/
def setupSurfaceAndContext (st : SpawnState)
    (winHandle dispHandle : Option Ptr) (width height : Nat) : SpawnState :=
  match st.system with
  | none => { st with logs := st.logs ++ ["System not supported."] }
  | some sys =>
      { st with
        surface := some { system := sys, winHandle, dispHandle },
        context := some { device := st.device,
                          format := st.presentationFormat, width, height },
        surfaceConstructions := st.surfaceConstructions + 1 }

/-- The setup FFI callback (`src/mod.ts` lines 211-225): store the handle
pair, build surface and context, then — unless the context is still null,
which logs `"Context not initialized."` and returns — invoke the user setup
function with the device and context. -/
def setupFunctionFfiCallback (st : SpawnState)
    (winHandle dispHandle : Option Ptr) (width height : Nat) : SpawnState :=
  let st₁ := { st with windowHandle := winHandle, displayHandle := dispHandle }
  let st₂ := setupSurfaceAndContext st₁ winHandle dispHandle width height
  match st₂.context with
  | none => { st₂ with logs := st₂.logs ++ ["Context not initialized."] }
  | some ctx =>
      { st₂ with userSetupCalls := st₂.userSetupCalls ++ [(st₂.device, ctx)] }

/-- The draw callback `drawFunctionCallback` (`src/mod.ts` lines 227-240): if the surface or
the context is still null, log a diagnostic and return; otherwise invoke
the user draw function with the device and context, then present the
surface. -/
def drawFunctionCallback (st : SpawnState) : SpawnState :=
  match st.surface with
  | none => { st with logs := st.logs ++ ["Surface not initialized."] }
  | some _ =>
      match st.context with
      | none => { st with logs := st.logs ++ ["Context not initialized."] }
      | some ctx =>
          { st with
            userDrawCalls := st.userDrawCalls ++ [(st.device, ctx)],
            presents := st.presents + 1 }

/-- The resize FFI callback (`src/mod.ts` lines 246-260): update the
current dimensions, invoke the user resize function, and — only when the
platform tag is `cocoa` — rebuild the surface and context against the
stored handle pair at the new size and invoke the draw callback once. -/
def resizeFunctionFfiCallback (st : SpawnState) (width height : Nat) :
    SpawnState :=
  let st₁ := { st with
    width, height, userResizeCalls := st.userResizeCalls ++ [(width, height)] }
  if st₁.system = some System.cocoa then
    drawFunctionCallback
      (setupSurfaceAndContext st₁ st₁.windowHandle st₁.displayHandle
        width height)
  else
    st₁

/-- One serialized callback invocation delivered by the native event loop. -/
inductive Event where
  | setup (winHandle dispHandle : Option Ptr) (width height : Nat)
  | draw
  | resize (width height : Nat)
deriving DecidableEq, Repr

/-- Dispatch one event to its trampoline. -/
def step (st : SpawnState) : Event → SpawnState
  | .setup w d a b => setupFunctionFfiCallback st w d a b
  | .draw => drawFunctionCallback st
  | .resize a b => resizeFunctionFfiCallback st a b

/-- Run a serialized sequence of callback invocations. -/
def run (st : SpawnState) : List Event → SpawnState
  | [] => st
  | e :: es => run (step st e) es

/-- The GPU environment `spawn` queries: `navigator.gpu.requestAdapter()`
and `adapter.requestDevice()` (`src/mod.ts` lines 172-180), each fallible. -/
structure GpuEnv where
  adapter : Option Nat
  requestDevice : Nat → Option Nat

/-- The arguments of one `dylib.symbols.spawn_window` invocation
(`src/mod.ts` lines 263-271): title C-string, optional icon C-string,
width and height. -/
structure NativeCall where
  title : List UInt8
  icon : Option (List UInt8)
  width : Nat
  height : Nat
deriving DecidableEq, Repr

/-- The method `WinitWindow.spawn` up to the blocking native call (`src/mod.ts` lines
163-272): check the dylib promise and platform tag, acquire adapter and
device (each failure throws before anything native runs), then invoke
`spawn_window` with the marshalled title, optional icon, and dimensions.
The `.ok` payload is the native invocation; `.error` means the native
entry point was never invoked. -/
def WinitWindow.spawn (w : WinitWindow) (gpu : GpuEnv) :
    Except String NativeCall :=
  if !w.dylibPromise then .error "Dynamic library not loaded."
  else match w.system with
  | none => .error "System not supported."
  | some _ =>
      match gpu.adapter with
      | none => .error "No GPU adapter found."
      | some adapter =>
          match gpu.requestDevice adapter with
          | none => .error "No GPU device found."
          | some _device =>
              .ok { title := asCString w.windowTitle,
                    icon := w.windowIconPath.map asCString,
                    width := w.width, height := w.height }

/-- The native `spawn_window` invocations performed by a `spawn` outcome:
exactly the `.ok` payload, none on `.error`. -/
def nativeCallsOf : Except String NativeCall → List NativeCall
  | .ok c => [c]
  | .error _ => []

/-- The callback state at the moment `spawn_window` is entered
(`src/mod.ts` lines 182-185): closure locals all null, ghost effect
records empty, `this` fields copied from the window. -/
def initSpawnState (w : WinitWindow) (device : Nat) : SpawnState :=
  { system := w.system, presentationFormat := w.presentationFormat,
    width := w.width, height := w.height, windowTitle := w.windowTitle,
    windowIconPath := w.windowIconPath, setupFunction := w.setupFunction,
    drawFunction := w.drawFunction, resizeFunction := w.resizeFunction,
    device, surface := none, context := none, windowHandle := none,
    displayHandle := none, surfaceConstructions := 0, userSetupCalls := [],
    userDrawCalls := [], userResizeCalls := [], presents := 0, logs := [] }

/-- The all-defaults options record: every option omitted. -/
def noOverrides : WinitWindowOptions :=
  { forceX11 := false, windowTitle := none, windowIconPath := none,
    width := none, height := none, presentationFormat := none,
    setupFunction := none, drawFunction := none, resizeFunction := none }

/-- A GPU environment in which adapter and device acquisition succeed. -/
def gpuOk : GpuEnv :=
  { adapter := some 0, requestDevice := fun _ => some 0 }

example : defaultTitleBytes = "Deno + winit".toUTF8.data.toList := by decide

/-- A sample constructed window: the result of the all-defaults constructor
on `"linux"`. -/
def defaultWindow : WinitWindow :=
  { dylibPromise := true, system := some System.wayland,
    windowTitle := defaultTitleBytes, windowIconPath := none,
    width := 512, height := 512, presentationFormat := "bgra8unorm",
    setupFunction := 0, drawFunction := 0, resizeFunction := 0 }

/-- A (synthetic, unreachable) callback state whose platform tag is absent,
used to exercise the defensive branches. -/
def stNoSystem : SpawnState :=
  { system := none, presentationFormat := "bgra8unorm", width := 512,
    height := 512, windowTitle := defaultTitleBytes, windowIconPath := none,
    setupFunction := 0, drawFunction := 0, resizeFunction := 0, device := 0,
    surface := none, context := none, windowHandle := none,
    displayHandle := none, surfaceConstructions := 0, userSetupCalls := [],
    userDrawCalls := [], userResizeCalls := [], presents := 0, logs := [] }

/-- A GPU environment in which adapter acquisition fails. -/
def gpuNoAdapter : GpuEnv := { adapter := none, requestDevice := fun _ => none }

/-- No callback ever writes the platform tag. -/
theorem step_system (st : SpawnState) (e : Event) : (step st e).system = st.system := by
  cases e with
  | setup p d a b =>
      cases hsys : st.system <;> cases hctx : st.context <;>
        simp [step, setupFunctionFfiCallback, setupSurfaceAndContext, hsys, hctx]
  | draw =>
      cases hsurf : st.surface <;> cases hctx : st.context <;>
        simp [step, drawFunctionCallback, hsurf, hctx]
  | resize a b =>
      cases hsys : st.system with
      | none => simp [step, resizeFunctionFfiCallback, hsys]
      | some sys =>
          cases sys <;>
            simp [step, resizeFunctionFfiCallback, setupSurfaceAndContext,
              drawFunctionCallback, hsys]

/-- Invariant tying the closure locals to the ghost construction counter:
a non-null surface or context, or a recorded user-draw invocation, implies
`setupSurfaceAndContext` has completed at least once. -/
def ContextInv (st : SpawnState) : Prop :=
  (st.surface ≠ none → 1 ≤ st.surfaceConstructions) ∧
  (st.context ≠ none → 1 ≤ st.surfaceConstructions) ∧
  (st.userDrawCalls ≠ [] → 1 ≤ st.surfaceConstructions)

/-- Every callback preserves `ContextInv`. -/
theorem step_contextInv (st : SpawnState) (e : Event) (h : ContextInv st) :
    ContextInv (step st e) := by
  obtain ⟨h₁, h₂, h₃⟩ := h
  cases e with
  | setup p d a b =>
      cases hsys : st.system <;> cases hctx : st.context <;>
        simp_all [step, ContextInv, setupFunctionFfiCallback,
          setupSurfaceAndContext, hsys, hctx]
  | draw =>
      cases hsurf : st.surface <;> cases hctx : st.context <;>
        simp_all [step, ContextInv, drawFunctionCallback, hsurf, hctx]
  | resize a b =>
      cases hsys : st.system with
      | none => simp_all [step, ContextInv, resizeFunctionFfiCallback, hsys]
      | some sys =>
          cases sys <;>
            simp_all [step, ContextInv, resizeFunctionFfiCallback,
              setupSurfaceAndContext, drawFunctionCallback, hsys]

/-- Any serialized callback sequence preserves `ContextInv`. -/
theorem run_contextInv (tr : List Event) (st : SpawnState) (h : ContextInv st) :
    ContextInv (run st tr) := by
  induction tr generalizing st with
  | nil => exact h
  | cons e es ih => exact ih (step st e) (step_contextInv st e h)

/-- With the platform tag present, no callback ever logs
`"System not supported."`. -/
theorem step_no_sysLog (st : SpawnState) (e : Event) (hs : st.system.isSome)
    (h : "System not supported." ∉ st.logs) :
    "System not supported." ∉ (step st e).logs := by
  cases e with
  | setup p d a b =>
      cases hsys : st.system with
      | none => rw [hsys] at hs; simp at hs
      | some sys =>
          simp_all [step, setupFunctionFfiCallback, setupSurfaceAndContext, hsys]
  | draw =>
      cases hsurf : st.surface <;> cases hctx : st.context <;>
        simp_all [step, drawFunctionCallback, hsurf, hctx]
  | resize a b =>
      cases hsys : st.system with
      | none => rw [hsys] at hs; simp at hs
      | some sys =>
          cases sys <;>
            simp_all [step, resizeFunctionFfiCallback, setupSurfaceAndContext,
              drawFunctionCallback, hsys]

/-- With the platform tag present, no callback sequence ever logs
`"System not supported."`. -/
theorem run_no_sysLog (tr : List Event) (st : SpawnState)
    (hs : st.system.isSome) (h : "System not supported." ∉ st.logs) :
    "System not supported." ∉ (run st tr).logs := by
  induction tr generalizing st with
  | nil => exact h
  | cons e es ih =>
      refine ih (step st e) ?_ (step_no_sysLog st e hs h)
      rw [step_system st e]
      exact hs

/-- C6: for every string (as its UTF-8 bytes) not containing a zero byte,
`asCString` returns exactly the UTF-8 encoding followed by a single trailing
zero byte; stripping the terminator reconstructs the encoding (hence, UTF-8
decoding being a left inverse of encoding, the string), and the marshalling
is injective. -/
theorem claim_C6 (s : List UInt8) (_hs : (0 : UInt8) ∉ s) :
    asCString s = s ++ [0] ∧
    (asCString s).dropLast = s ∧
    ∀ t : List UInt8, (0 : UInt8) ∉ t → asCString s = asCString t → s = t := by
  refine ⟨rfl, by simp [asCString], ?_⟩
  intro t _ h
  exact List.append_cancel_right h

theorem claim_C6_witness :
    asCString [72, 105] = [72, 105] ++ [(0 : UInt8)] ∧
    (asCString [72, 105]).dropLast = [72, 105] :=
  ⟨(claim_C6 [72, 105] (by decide)).1, (claim_C6 [72, 105] (by decide)).2.1⟩

/-- C3: platform resolution at construction maps linux (force flag unset)
to `wayland`, linux (flag set) to `x11`, windows to `win32`, darwin to
`cocoa`; any other OS makes the constructor fail with `"Unsupported OS."`,
so no window value exists and the native spawner (reachable only through
`WinitWindow.spawn` on a constructed window) is never invoked. -/
theorem claim_C3 (o : WinitWindowOptions) :
    (o.forceX11 = false →
      (mkWinitWindow o "linux").map (fun w => w.system) =
        .ok (some System.wayland)) ∧
    (o.forceX11 = true →
      (mkWinitWindow o "linux").map (fun w => w.system) =
        .ok (some System.x11)) ∧
    ((mkWinitWindow o "windows").map (fun w => w.system) =
      .ok (some System.win32)) ∧
    ((mkWinitWindow o "darwin").map (fun w => w.system) =
      .ok (some System.cocoa)) ∧
    (∀ os : String, os ≠ "linux" → os ≠ "windows" → os ≠ "darwin" →
      mkWinitWindow o os = .error "Unsupported OS." ∧
      (mkWinitWindow o os).toOption = none) := by
  refine ⟨?_, ?_, ?_, ?_, ?_⟩
  · intro hf; simp [mkWinitWindow, resolvePlatform, Except.map, hf]
  · intro hf; simp [mkWinitWindow, resolvePlatform, Except.map, hf]
  · simp [mkWinitWindow, resolvePlatform, Except.map]
  · simp [mkWinitWindow, resolvePlatform, Except.map]
  · intro os h₁ h₂ h₃
    constructor <;>
      simp [mkWinitWindow, resolvePlatform, Except.toOption, h₁, h₂, h₃]

theorem claim_C3_witness :
    (mkWinitWindow noOverrides "linux").map (fun w => w.system) =
      .ok (some System.wayland) ∧
    mkWinitWindow noOverrides "plan9" = .error "Unsupported OS." :=
  ⟨(claim_C3 noOverrides).1 rfl,
   ((claim_C3 noOverrides).2.2.2.2 "plan9" (by decide) (by decide)
      (by decide)).1⟩

/-- C7: with no overrides the defaults are width 512, height 512 and
presentation format `"bgra8unorm"`; spawn passes the dimensions unchanged
as the `u32` arguments of the native call, and the format is configured
unchanged into the canvas context built by `setupSurfaceAndContext`. -/
theorem claim_C7 :
    (mkWinitWindow noOverrides "linux").map
        (fun w => (w.width, w.height, w.presentationFormat)) =
      .ok (512, 512, "bgra8unorm") ∧
    ((mkWinitWindow noOverrides "linux").bind (fun w => w.spawn gpuOk)) =
      .ok { title := asCString defaultTitleBytes, icon := none,
            width := 512, height := 512 } ∧
    (mkWinitWindow noOverrides "linux").map
        (fun w =>
          (setupSurfaceAndContext (initSpawnState w 0) (some 1) (some 2)
              512 512).context) =
      .ok (some { device := 0, format := "bgra8unorm",
                  width := 512, height := 512 }) :=
  ⟨rfl, rfl, rfl⟩

/-- C9: option defaulting is by JavaScript truthiness, not presence:
`width: 0`, `height: 0`, an empty title and an empty icon path behave
exactly as if the option had been omitted, yielding the defaults
(512, 512, `"Deno + winit"`, no icon). -/
theorem claim_C9 (o : WinitWindowOptions) (os : String) :
    mkWinitWindow { o with width := some 0 } os =
      mkWinitWindow { o with width := none } os ∧
    mkWinitWindow { o with height := some 0 } os =
      mkWinitWindow { o with height := none } os ∧
    mkWinitWindow { o with windowTitle := some [] } os =
      mkWinitWindow { o with windowTitle := none } os ∧
    mkWinitWindow { o with windowIconPath := some [] } os =
      mkWinitWindow { o with windowIconPath := none } os ∧
    (∀ w, mkWinitWindow { o with width := some 0 } os = .ok w →
      w.width = 512) ∧
    (∀ w, mkWinitWindow { o with height := some 0 } os = .ok w →
      w.height = 512) ∧
    (∀ w, mkWinitWindow { o with windowTitle := some [] } os = .ok w →
      w.windowTitle = defaultTitleBytes) ∧
    (∀ w, mkWinitWindow { o with windowIconPath := some [] } os = .ok w →
      w.windowIconPath = none) := by
  refine ⟨rfl, rfl, rfl, rfl, ?_, ?_, ?_, ?_⟩ <;>
    · intro w hw
      cases hr : resolvePlatform os o.forceX11 <;>
        simp [mkWinitWindow, hr] at hw
      cases hw
      simp [truthyNum, truthyStr]

theorem claim_C9_witness :
    mkWinitWindow { noOverrides with width := some 0 } "linux" =
      mkWinitWindow { noOverrides with width := none } "linux" ∧
    defaultWindow.width = 512 :=
  ⟨(claim_C9 noOverrides "linux").1,
   (claim_C9 noOverrides "linux").2.2.2.2.1 defaultWindow (by rfl)⟩

/-- The bridge's current dimensions (`this.width`, `this.height`). -/
def dims (st : SpawnState) : Nat × Nat := (st.width, st.height)

/-- The remaining `this` configuration visible to the callbacks: title,
icon path, presentation format, and the three user callbacks. -/
def staticConfig (st : SpawnState) :
    List UInt8 × Option (List UInt8) × String × Nat × Nat × Nat :=
  (st.windowTitle, st.windowIconPath, st.presentationFormat,
   st.setupFunction, st.drawFunction, st.resizeFunction)

/-- C8: during the callback phase the current width/height are modified
only by the resize trampoline — setup and draw preserve them, and all
three trampolines preserve the title, icon path, presentation format and
callback set — and the resize trampoline sets the dimensions to its
arguments and invokes the user resize function with those same values. -/
theorem claim_C8 (st : SpawnState) (p d : Option Ptr) (a b w h : Nat) :
    dims (setupFunctionFfiCallback st p d a b) = dims st ∧
    staticConfig (setupFunctionFfiCallback st p d a b) = staticConfig st ∧
    dims (drawFunctionCallback st) = dims st ∧
    staticConfig (drawFunctionCallback st) = staticConfig st ∧
    dims (resizeFunctionFfiCallback st w h) = (w, h) ∧
    staticConfig (resizeFunctionFfiCallback st w h) = staticConfig st ∧
    (resizeFunctionFfiCallback st w h).userResizeCalls =
      st.userResizeCalls ++ [(w, h)] := by
  refine ⟨?_, ?_, ?_, ?_, ?_, ?_, ?_⟩
  · cases hsys : st.system <;> cases hctx : st.context <;>
      simp [dims, setupFunctionFfiCallback, setupSurfaceAndContext, hsys, hctx]
  · cases hsys : st.system <;> cases hctx : st.context <;>
      simp [staticConfig, setupFunctionFfiCallback, setupSurfaceAndContext,
        hsys, hctx]
  · cases hsurf : st.surface <;> cases hctx : st.context <;>
      simp [dims, drawFunctionCallback, hsurf, hctx]
  · cases hsurf : st.surface <;> cases hctx : st.context <;>
      simp [staticConfig, drawFunctionCallback, hsurf, hctx]
  · cases hsys : st.system with
    | none => simp [dims, resizeFunctionFfiCallback, hsys]
    | some sys =>
        cases sys <;>
          simp [dims, resizeFunctionFfiCallback, setupSurfaceAndContext,
            drawFunctionCallback, hsys]
  · cases hsys : st.system with
    | none => simp [staticConfig, resizeFunctionFfiCallback, hsys]
    | some sys =>
        cases sys <;>
          simp [staticConfig, resizeFunctionFfiCallback, setupSurfaceAndContext,
            drawFunctionCallback, hsys]
  · cases hsys : st.system with
    | none => simp [resizeFunctionFfiCallback, hsys]
    | some sys =>
        cases sys <;>
          simp [resizeFunctionFfiCallback, setupSurfaceAndContext,
            drawFunctionCallback, hsys]

/-- C1: the setup trampoline captures the handle pair, draw and resize
never modify it, and a resize rebuilds the surface/context if and only if
the platform tag is `cocoa`: on `cocoa` it constructs one new surface
against the stored handle pair, configures the context at the new width
and height, and performs exactly one synthetic user draw; on `win32`,
`wayland` and `x11` a resize changes neither surface, context,
construction count, nor draw count. -/
theorem claim_C1 (st : SpawnState) (p d : Option Ptr) (a b w h : Nat) :
    ((setupFunctionFfiCallback st p d a b).windowHandle = p ∧
     (setupFunctionFfiCallback st p d a b).displayHandle = d) ∧
    ((drawFunctionCallback st).windowHandle = st.windowHandle ∧
     (drawFunctionCallback st).displayHandle = st.displayHandle) ∧
    ((resizeFunctionFfiCallback st w h).windowHandle = st.windowHandle ∧
     (resizeFunctionFfiCallback st w h).displayHandle = st.displayHandle) ∧
    ((resizeFunctionFfiCallback st w h).surfaceConstructions ≠
        st.surfaceConstructions ↔ st.system = some System.cocoa) ∧
    (st.system = some System.cocoa →
      (resizeFunctionFfiCallback st w h).surface =
        some { system := System.cocoa, winHandle := st.windowHandle,
               dispHandle := st.displayHandle } ∧
      (resizeFunctionFfiCallback st w h).context =
        some { device := st.device, format := st.presentationFormat,
               width := w, height := h } ∧
      (resizeFunctionFfiCallback st w h).surfaceConstructions =
        st.surfaceConstructions + 1 ∧
      (resizeFunctionFfiCallback st w h).userDrawCalls =
        st.userDrawCalls ++
          [(st.device, { device := st.device, format := st.presentationFormat,
                         width := w, height := h })]) ∧
    (∀ sys, st.system = some sys → sys ≠ System.cocoa →
      (resizeFunctionFfiCallback st w h).surface = st.surface ∧
      (resizeFunctionFfiCallback st w h).context = st.context ∧
      (resizeFunctionFfiCallback st w h).surfaceConstructions =
        st.surfaceConstructions ∧
      (resizeFunctionFfiCallback st w h).userDrawCalls = st.userDrawCalls) := by
  refine ⟨?_, ?_, ?_, ?_, ?_, ?_⟩
  · cases hsys : st.system <;> cases hctx : st.context <;>
      simp [setupFunctionFfiCallback, setupSurfaceAndContext, hsys, hctx]
  · cases hsurf : st.surface <;> cases hctx : st.context <;>
      simp [drawFunctionCallback, hsurf, hctx]
  · cases hsys : st.system with
    | none => simp [resizeFunctionFfiCallback, hsys]
    | some sys =>
        cases sys <;>
          simp [resizeFunctionFfiCallback, setupSurfaceAndContext,
            drawFunctionCallback, hsys]
  · cases hsys : st.system with
    | none => simp [resizeFunctionFfiCallback, hsys]
    | some sys =>
        cases sys <;>
          simp [resizeFunctionFfiCallback, setupSurfaceAndContext,
            drawFunctionCallback, hsys]
  · intro hsys
    simp [resizeFunctionFfiCallback, setupSurfaceAndContext,
      drawFunctionCallback, hsys]
  · intro sys hsys hne
    cases sys <;>
      simp [resizeFunctionFfiCallback, setupSurfaceAndContext,
        drawFunctionCallback, hsys] <;> simp at hne

theorem claim_C1_witness :
    (resizeFunctionFfiCallback
        (initSpawnState { defaultWindow with system := some System.cocoa } 0)
        400 300).surfaceConstructions =
      (initSpawnState { defaultWindow with system := some System.cocoa }
          0).surfaceConstructions + 1 :=
  ((claim_C1
      (initSpawnState { defaultWindow with system := some System.cocoa } 0)
      none none 1 1 400 300).2.2.2.2.1 rfl).2.2.1

/-- C4: in-callback failures are contained locally.  With the platform tag
absent, `setupSurfaceAndContext` only logs `"System not supported."` and
returns; the setup trampoline then logs `"Context not initialized."` as
well and returns with only the handle pair stored; whenever surface/context
construction did not produce a context, the user setup function is not
invoked; and a draw with a null surface or context only logs the matching
diagnostic and returns.  (Each trampoline is a total state-transition
function — the model of the early-return structure of the source, which
never lets these failures escape to the native caller.) -/
theorem claim_C4 (st : SpawnState) (p d : Option Ptr) (a b : Nat) :
    (st.system = none →
      setupSurfaceAndContext st p d a b =
        { st with logs := st.logs ++ ["System not supported."] }) ∧
    (st.system = none → st.context = none →
      setupFunctionFfiCallback st p d a b =
        { st with windowHandle := p, displayHandle := d,
                  logs := st.logs ++
                    ["System not supported.", "Context not initialized."] }) ∧
    ((setupFunctionFfiCallback st p d a b).context = none →
      (setupFunctionFfiCallback st p d a b).userSetupCalls =
        st.userSetupCalls) ∧
    (st.surface = none →
      drawFunctionCallback st =
        { st with logs := st.logs ++ ["Surface not initialized."] }) ∧
    (st.surface ≠ none → st.context = none →
      drawFunctionCallback st =
        { st with logs := st.logs ++ ["Context not initialized."] }) := by
  refine ⟨?_, ?_, ?_, ?_, ?_⟩
  · intro hsys
    simp [setupSurfaceAndContext, hsys]
  · intro hsys hctx
    simp [setupFunctionFfiCallback, setupSurfaceAndContext, hsys, hctx]
  · intro hpost
    cases hsys : st.system <;> cases hctx : st.context <;>
      simp [setupFunctionFfiCallback, setupSurfaceAndContext, hsys, hctx] <;>
      simp [setupFunctionFfiCallback, setupSurfaceAndContext, hsys, hctx]
        at hpost
  · intro hsurf
    simp [drawFunctionCallback, hsurf]
  · intro hsurf hctx
    obtain ⟨s, hs⟩ := Option.ne_none_iff_exists'.mp hsurf
    simp [drawFunctionCallback, hs, hctx]

theorem claim_C4_witness :
    setupSurfaceAndContext stNoSystem none none 1 1 =
      { stNoSystem with
        logs := stNoSystem.logs ++ ["System not supported."] } ∧
    setupFunctionFfiCallback stNoSystem none none 1 1 =
      { stNoSystem with
        windowHandle := none, displayHandle := none,
        logs := stNoSystem.logs ++
          ["System not supported.", "Context not initialized."] } ∧
    drawFunctionCallback stNoSystem =
      { stNoSystem with
        logs := stNoSystem.logs ++ ["Surface not initialized."] } :=
  ⟨(claim_C4 stNoSystem none none 1 1).1 rfl,
   (claim_C4 stNoSystem none none 1 1).2.1 rfl rfl,
   (claim_C4 stNoSystem none none 1 1).2.2.2.1 rfl⟩

/-- C5: `spawn` acquires the GPU adapter and device before the blocking
native call; adapter failure raises `"No GPU adapter found."` and device
failure raises `"No GPU device found."`, each surfaced synchronously to
the caller with the native `spawn_window` entry point never invoked. -/
theorem claim_C5 (w : WinitWindow) (gpu : GpuEnv)
    (hd : w.dylibPromise = true) (hs : w.system.isSome) :
    (gpu.adapter = none →
      w.spawn gpu = .error "No GPU adapter found." ∧
      nativeCallsOf (w.spawn gpu) = []) ∧
    (∀ a, gpu.adapter = some a → gpu.requestDevice a = none →
      w.spawn gpu = .error "No GPU device found." ∧
      nativeCallsOf (w.spawn gpu) = []) := by
  obtain ⟨sys, hsys⟩ := Option.isSome_iff_exists.mp hs
  constructor
  · intro ha
    constructor <;> simp [WinitWindow.spawn, nativeCallsOf, hd, hsys, ha]
  · intro a ha hdev
    constructor <;>
      simp [WinitWindow.spawn, nativeCallsOf, hd, hsys, ha, hdev]

theorem claim_C5_witness :
    defaultWindow.spawn gpuNoAdapter = .error "No GPU adapter found." ∧
    nativeCallsOf (defaultWindow.spawn gpuNoAdapter) = [] :=
  (claim_C5 defaultWindow gpuNoAdapter rfl rfl).1 rfl

/-- C2 counterexample: on a `cocoa` window, a serialized sequence
consisting of a single resize — the setup trampoline never invoked, hence
never completed — nevertheless invokes the user draw function once: the
resize trampoline itself rebuilds the surface/context and performs its
synthetic draw.  So the user draw function can run before the setup
trampoline has completed. -/
theorem claim_C2_counterexample :
    (mkWinitWindow noOverrides "darwin").map
        (fun w =>
          ((run (initSpawnState w 0) [.resize 100 100]).userDrawCalls.length,
           (run (initSpawnState w 0) [.resize 100 100]).userSetupCalls.length,
           (run (initSpawnState w 0) [.resize 100 100]).surfaceConstructions)) =
      .ok (1, 0, 1) := by
  rfl

/-- C2 (amended): in every serialized sequence of callback invocations the
user draw function is never invoked before `setupSurfaceAndContext` has
completed at least once (building a non-null surface and context) — which
the setup trampoline performs, but which on `cocoa` a resize trampoline
also performs; and a draw callback arriving while the surface or context
is still null is a no-op that logs one diagnostic and neither crashes nor
calls the user draw function. -/
theorem claim_C2 :
    (∀ st : SpawnState, st.surface = none ∨ st.context = none →
      (drawFunctionCallback st).userDrawCalls = st.userDrawCalls ∧
      (drawFunctionCallback st).logs.length = st.logs.length + 1 ∧
      { drawFunctionCallback st with logs := st.logs } = st) ∧
    (∀ (w : WinitWindow) (dev : Nat) (tr : List Event),
      (run (initSpawnState w dev) tr).userDrawCalls ≠ [] →
      1 ≤ (run (initSpawnState w dev) tr).surfaceConstructions) := by
  constructor
  · intro st hnull
    obtain ⟨sys, fmt, wi, he, ti, ic, sf, df, rf, dev, surf, ctx, wh, dh,
      sc, us, ud, ur, pr, lg⟩ := st
    rcases hnull with hsurf | hctx
    · simp only at hsurf
      subst hsurf
      simp [drawFunctionCallback]
    · simp only at hctx
      subst hctx
      cases surf <;> simp [drawFunctionCallback]
  · intro w dev tr hdraw
    have hinv : ContextInv (initSpawnState w dev) := by
      refine ⟨?_, ?_, ?_⟩ <;> intro hx <;> simp [initSpawnState] at hx
    exact (run_contextInv tr (initSpawnState w dev) hinv).2.2 hdraw

theorem claim_C2_witness :
    (drawFunctionCallback stNoSystem).userDrawCalls =
      stNoSystem.userDrawCalls ∧
    (drawFunctionCallback stNoSystem).logs.length =
      stNoSystem.logs.length + 1 :=
  ⟨(claim_C2.1 stNoSystem (Or.inl rfl)).1,
   (claim_C2.1 stNoSystem (Or.inl rfl)).2.1⟩

/-- C10: a constructor that returns normally always yields a window whose
platform tag is one of the four tags and whose dylib promise is set, so
`spawn`'s `"Dynamic library not loaded."` and `"System not supported."`
branches never fire, and no callback sequence started from such a window
ever reaches the platform-absent branch of `setupSurfaceAndContext`
(its `"System not supported."` diagnostic is never logged). -/
theorem claim_C10 (o : WinitWindowOptions) (os : String) (w : WinitWindow)
    (hw : mkWinitWindow o os = .ok w) :
    w.system.isSome ∧ w.dylibPromise = true ∧
    (∀ gpu : GpuEnv,
      w.spawn gpu ≠ .error "Dynamic library not loaded." ∧
      w.spawn gpu ≠ .error "System not supported.") ∧
    (∀ (dev : Nat) (tr : List Event),
      "System not supported." ∉ (run (initSpawnState w dev) tr).logs) := by
  have hfields : w.dylibPromise = true ∧ w.system.isSome := by
    cases hr : resolvePlatform os o.forceX11 <;>
      simp [mkWinitWindow, hr] at hw
    cases hw
    simp
  obtain ⟨hd, hs⟩ := hfields
  obtain ⟨sys, hsys⟩ := Option.isSome_iff_exists.mp hs
  refine ⟨hs, hd, ?_, ?_⟩
  · intro gpu
    cases ha : gpu.adapter with
    | none => constructor <;> simp [WinitWindow.spawn, hd, hsys, ha]
    | some a =>
        cases hdev : gpu.requestDevice a <;>
          constructor <;> simp [WinitWindow.spawn, hd, hsys, ha, hdev]
  · intro dev tr
    refine run_no_sysLog tr (initSpawnState w dev) ?_ ?_
    · simp [initSpawnState, hs]
    · simp [initSpawnState]

theorem claim_C10_witness :
    defaultWindow.system.isSome ∧ defaultWindow.dylibPromise = true :=
  ⟨(claim_C10 noOverrides "linux" defaultWindow rfl).1,
   (claim_C10 noOverrides "linux" defaultWindow rfl).2.1⟩
